import Mathlib

/-!
Verification development for the mysclv repository: a client-side
phone/email validation widget (src/unnamed/part_000, two IIFEs: an email
validator and a WhatsApp validator) together with a Cloudflare Worker
proxy (src/cf-worker.js).  Strings manipulated character by character are
modelled as `List Char`; machine integers are `Nat`; JavaScript null or
undefined results are `Option`.
-/

/-! # Phone-number cleaning and normalization

`src/cf-worker.js` lines 203-216 (`formatPhoneNumber`) and
`src/unnamed/part_000` lines 1418-1434 (`PhoneFormatter.normalize`).
Both first delete every character that is neither a decimal digit nor a
plus sign (the regex replace of `[^\d+]` by the empty string; the
worker additionally trims, which removes only characters the regex
deletes anyway), then adjust the prefix.
-/

/-- A character survives the cleaning regex iff it is a decimal digit or
a plus sign. -/
def keepChar (c : Char) : Bool := c.isDigit || c = '+'

/-- The shared cleaning step: drop every character that is neither a
digit nor a plus sign. -/
def cleanPhone (s : List Char) : List Char := s.filter keepChar

/-- Prefix adjustment of the worker `formatPhoneNumber` (cf-worker.js
lines 212-215), applied to the cleaned string: a leading `0` becomes
`+62`, a leading `62` gains a `+`, a leading `+` is kept, and anything
else is prefixed with `+62`. -/
def fmtClean (c : List Char) : List Char :=
  if c.take 1 = ['0'] then '+' :: '6' :: '2' :: c.drop 1
  else if c.take 2 = ['6', '2'] then '+' :: c
  else if c.take 1 = ['+'] then c
  else '+' :: '6' :: '2' :: c

/-- `formatPhoneNumber` of cf-worker.js on string inputs: a falsy (empty)
input yields `null`, otherwise the cleaned input with adjusted prefix. -/
def formatPhoneNumber (s : List Char) : Option (List Char) :=
  if s = [] then none else some (fmtClean (cleanPhone s))

/-- Lifting of `formatPhoneNumber` to its own (nullable) result type:
the JS function returns `null` on a `null` argument. -/
def formatPhoneNumberOpt (o : Option (List Char)) : Option (List Char) :=
  match o with
  | none => none
  | some s => formatPhoneNumber s

namespace PhoneFormatter

/-- Prefix adjustment of the client `PhoneFormatter.normalize`
(part_000 lines 1421-1431), applied to the cleaned string: a leading `0`
becomes `+62`, a leading `62` gains a `+`, and a string of length 9 to 13
without a leading `+` is prefixed with `+62`; otherwise the cleaned
string is returned unchanged. -/
def normClean (n : List Char) : List Char :=
  if n.take 1 = ['0'] then '+' :: '6' :: '2' :: n.drop 1
  else if n.take 2 = ['6', '2'] then '+' :: n
  else if n.take 1 ≠ ['+'] ∧ 9 ≤ n.length ∧ n.length ≤ 13 then '+' :: '6' :: '2' :: n
  else n

/-- `PhoneFormatter.normalize` of part_000 lines 1418-1434. -/
def normalize (s : List Char) : List Char := normClean (cleanPhone s)

end PhoneFormatter

/-! # The edge proxy (src/cf-worker.js)

`handleRequest` (lines 62-137) dispatches on method, whitelist, KV
binding and rate limit before delegating to `processValidation`
(lines 310-401), which parses the body, checks the `number` field and
the server credential, calls the upstream API and maps upstream
failures to an HTTP status by inspecting the error message. -/

/-- Request method, as distinguished by handleRequest: OPTIONS, POST, or
anything else. -/
inductive HttpMethod
  | options
  | post
  | other
deriving DecidableEq

/-- Outcome of parsing the request body (parseRequestBody, lines
219-260, plus the `number` field check of processValidation): the body
can be empty, fail JSON parsing, or parse to an object whose `number`
field is the given string ([] standing for a missing or falsy field). -/
inductive ReqBody
  | empty
  | malformed
  | parsed (number : List Char)
deriving DecidableEq

/-- An incoming request as far as the worker inspects it. -/
structure WorkerReq where
  method : HttpMethod
  contentTypeJson : Bool
  body : ReqBody
deriving DecidableEq

/-- Outcome of callStarsenderAPI (lines 263-308): an ok (2xx) response
with a JSON body is a success carrying the upstream status; otherwise
the thrown error message contains `API responded` (non-ok status),
`timeout` (abort after 8s), `fetch` (connection failure), `HTML`
(HTML-shaped body), or, for a 2xx body that is neither HTML nor valid
JSON, a JSON syntax error message containing none of those markers. -/
inductive UpstreamOutcome
  | ok (status : Nat)
  | httpErr (status : Nat)
  | timeout
  | netErr
  | htmlBody
  | badJson
deriving DecidableEq

/-- Server-side environment of one request. `rateAllowed` is the verdict
of checkRateLimit (lines 140-175), whose storage errors fail open and
therefore count as allowed. -/
structure WorkerEnv where
  whitelisted : Bool
  kvBound : Bool
  rateAllowed : Bool
  apiKeyPresent : Bool
  upstream : UpstreamOutcome
deriving DecidableEq

/-- Status code produced by processValidation (lines 310-401): body and
`number` checks yield 400, a missing credential 500, then the upstream
outcome is passed through on success and otherwise classified by the
catch block (lines 377-389): a message containing `timeout` gives 504,
one containing `fetch` or `API` or `HTML` gives 502, anything else
(the bad-JSON syntax error) keeps the default 500. -/
def processStatus (req : WorkerReq) (env : WorkerEnv) : Nat :=
  if req.contentTypeJson = false then 400
  else match req.body with
    | .empty => 400
    | .malformed => 400
    | .parsed number =>
      if number = [] then 400
      else match formatPhoneNumber number with
        | none => 400
        | some _ =>
          if env.apiKeyPresent = false then 500
          else match env.upstream with
            | .ok s => s
            | .timeout => 504
            | .httpErr _ => 502
            | .netErr => 502
            | .htmlBody => 502
            | .badJson => 500

/-- Status code produced by handleRequest (lines 62-137): OPTIONS gets a
204 preflight, any non-POST method 405; a POST is processed directly
when the IP is whitelisted or the KV namespace is unbound, is processed
when the rate check allows it, and otherwise receives the 200
rate-limit envelope. -/
def handleRequest (req : WorkerReq) (env : WorkerEnv) : Nat :=
  match req.method with
  | .options => 204
  | .other => 405
  | .post =>
    if env.whitelisted then processStatus req env
    else if env.kvBound = false then processStatus req env
    else if env.rateAllowed then processStatus req env
    else 200

/-! # The local result cache (CacheManager)

Email variant: part_000 lines 99-149 (prefix email_v_); WhatsApp
variant: lines 1113-1234 (prefix wa_v_, plus cleanup).  get and set are
structurally identical in both.  localStorage is modelled as an
association list in iteration order; the stored JSON object
(result, expiry, timestamp) is a record.  The storage-available happy
path is modelled; unavailability degrades both operations to no-ops in
the source and is not needed by any claim. -/

/-- A stored cache record: schema (result, expiry, timestamp). -/
structure CEntry (α : Type) where
  result : α
  expiry : Nat
  timestamp : Nat
deriving DecidableEq

/-- localStorage contents, in iteration order. -/
abbrev CStore (α : Type) : Type := List (String × CEntry α)

/-- localStorage.setItem: overwrite in place if the key exists, append
otherwise. -/
def setItem {α : Type} (k : String) (e : CEntry α) (st : CStore α) : CStore α :=
  if st.any (fun p => p.1 = k) then st.map (fun p => if p.1 = k then (k, e) else p)
  else st ++ [(k, e)]

/-- localStorage.getItem. -/
def getItem {α : Type} (k : String) (st : CStore α) : Option (CEntry α) :=
  (st.find? (fun p => p.1 = k)).map Prod.snd

/-- localStorage.removeItem. -/
def removeItem {α : Type} (k : String) (st : CStore α) : CStore α :=
  st.filter (fun p => p.1 ≠ k)

/-- CONFIG.CACHE.SUCCESS_TTL (both validators). -/
def successTTL : Nat := 600000

/-- CONFIG.CACHE.FAILURE_TTL (both validators). -/
def failureTTL : Nat := 300000

/-- CONFIG.CACHE.MAX_SIZE (both validators). -/
def cacheMaxSize : Nat := 50

/-- CacheManager.get: a missing key yields null; an entry whose expiry
lies strictly in the past (Date.now() > expiry) is removed and yields
null; otherwise the stored result is returned. -/
def cacheGet {α : Type} (keyPref value : String) (now : Nat) (st : CStore α) :
    Option α × CStore α :=
  let k := keyPref ++ value
  match getItem k st with
  | none => (none, st)
  | some e => if e.expiry < now then (none, removeItem k st) else (some e.result, st)

/-- CacheManager.set: store the result under the prefixed key with
expiry now + TTL, where the TTL is the success TTL for a success and
the failure TTL otherwise, and the write timestamp. -/
def cacheSet {α : Type} (keyPref value : String) (r : α) (isSuccess : Bool) (now : Nat)
    (st : CStore α) : CStore α :=
  let ttl := if isSuccess then successTTL else failureTTL
  setItem (keyPref ++ value) ⟨r, now + ttl, now⟩ st

/-- key.startsWith(keyPref), computed on the character lists. -/
def strHasPref (keyPref k : String) : Bool := keyPref.data.isPrefixOf k.data

/-- The prefixed keys collected at the start of cleanup (lines
1193-1201), in iteration order. -/
def cleanupKeys {α : Type} (keyPref : String) (st : CStore α) : List String :=
  (st.map Prod.fst).filter (fun k => strHasPref keyPref k)

/-- The store after the expired-entry pass of cleanup (lines
1203-1213): every prefixed key whose entry has expired is removed. -/
def cleanupFresh {α : Type} (keyPref : String) (now : Nat) (st : CStore α) : CStore α :=
  st.filter (fun p => !(strHasPref keyPref p.1 && decide (p.2.expiry < now)))

/-- The key-timestamp pairs built for the capacity pass (lines
1217-1226): each collected key is read back from storage; a key whose
entry is gone (or unreadable) sorts with timestamp 0 through the
catch. -/
def cleanupItems {α : Type} (keyPref : String) (now : Nat) (st : CStore α) :
    List (String × Nat) :=
  (cleanupKeys keyPref st).map (fun k =>
    (k, match getItem k (cleanupFresh keyPref now st) with
        | some e => e.timestamp
        | none => 0))

/-- The keys evicted by the capacity pass: the items sorted ascending
by timestamp, of which the first count - MAX_SIZE are removed. -/
def cleanupEvicted {α : Type} (keyPref : String) (now : Nat) (st : CStore α) :
    List String :=
  (((cleanupItems keyPref now st).mergeSort (fun a b => decide (a.2 ≤ b.2))).take
    ((cleanupItems keyPref now st).length - cacheMaxSize)).map Prod.fst

/-- CacheManager.cleanup (WhatsApp validator, lines 1189-1234): collect
the prefixed keys, remove the expired ones among them, and if the
collected key count exceeds MAX_SIZE, sort the keys by stored write
timestamp and remove the first count - MAX_SIZE of them. -/
def cacheCleanup {α : Type} (keyPref : String) (now : Nat) (st : CStore α) : CStore α :=
  if cacheMaxSize < (cleanupKeys keyPref st).length then
    (cleanupFresh keyPref now st).filter
      (fun p => !((cleanupEvicted keyPref now st).contains p.1))
  else cleanupFresh keyPref now st

/-! # The validation queue (QueueManager)

Email variant: part_000 lines 152-188; WhatsApp variant: lines
1315-1361.  Identical logic (the WhatsApp variant additionally stores a
timestamp on each entry, unused by processing).  Dispatched jobs are
recorded in a log, most recent first. -/

/-- CONFIG.QUEUE.MAX_SIZE (both validators). -/
def qMaxSize : Nat := 5

/-- CONFIG.QUEUE.MAX_CONCURRENT (both validators). -/
def qMaxConcurrent : Nat := 2

/-- State of a QueueManager: pending entries in insertion order, the
number of running jobs, and a log of dispatched values (most recent
first). -/
structure QueueState where
  queue : List String
  activeCount : Nat
  dispatched : List String
deriving DecidableEq

/-- QueueManager.process: do nothing when the concurrency cap is
reached or the queue is empty; otherwise pop the most recently queued
entry and run it. -/
def qProcess (s : QueueState) : QueueState :=
  if qMaxConcurrent ≤ s.activeCount ∨ s.queue = [] then s
  else match s.queue.getLast? with
    | none => s
    | some v =>
      { queue := s.queue.dropLast, activeCount := s.activeCount + 1,
        dispatched := v :: s.dispatched }

/-- QueueManager.cancel: the sentinel value all clears the queue;
otherwise the first pending entry for the value, if any, is spliced
out. -/
def qCancel (v : String) (s : QueueState) : QueueState :=
  if v = "all" then { s with queue := [] }
  else { s with queue := s.queue.erase v }

/-- QueueManager.add: cancel any pending entry for the value, then push
and process only while fewer than MAX_SIZE entries are pending. -/
def qAdd (v : String) (s : QueueState) : QueueState :=
  let s1 := qCancel v s
  if s1.queue.length < qMaxSize then qProcess { s1 with queue := s1.queue ++ [v] }
  else s1

/-- The completion callback handed to each job: free the slot and
process the next queued entry. -/
def qComplete (s : QueueState) : QueueState :=
  qProcess { s with activeCount := s.activeCount - 1 }

/-! # The request manager (WhatsApp validator, part_000 lines 1238-1312)

makeRequest keys an in-flight promise map by phone value: a second call
for a value already in the map returns the existing promise; otherwise
executeRequest starts one network call, and the map entry is deleted in
a finally after that call settles.  Modelled as a transition system
over the set of map keys and the multiset of outstanding network
calls. -/

/-- State of a RequestManager: the keys of activeRequests and the
values with an outstanding network call. -/
structure RMState where
  active : List String
  outstanding : List String
deriving DecidableEq

/-- Empty RequestManager. -/
def rmInit : RMState := ⟨[], []⟩

/-- Transitions of the RequestManager: a makeRequest call for a value
not in the map issues one network call and registers the promise; a
call for a registered value joins the existing promise and issues
nothing; a network call settles; the finally deletes the map entry
after its call has settled. -/
inductive RMStep : RMState → RMState → Prop
  | callNew (v : String) (s : RMState) (h : v ∉ s.active) :
      RMStep s ⟨v :: s.active, v :: s.outstanding⟩
  | callJoin (v : String) (s : RMState) (h : v ∈ s.active) : RMStep s s
  | settle (v : String) (s : RMState) (h : v ∈ s.outstanding) :
      RMStep s ⟨s.active, s.outstanding.erase v⟩
  | finallyDelete (v : String) (s : RMState) (h : v ∈ s.active)
      (h2 : v ∉ s.outstanding) : RMStep s ⟨s.active.erase v, s.outstanding⟩

/-- Reachability from the empty RequestManager. -/
def RMReachable (s : RMState) : Prop := Relation.ReflTransGen RMStep rmInit s

/-- RequestManager.executeRequest, line 1270: the effective timeout is
customTimeout when truthy, else the attempt-indexed CONFIG.TIMEOUTS
entry when present and truthy, else 5000. -/
def CONFIG_TIMEOUTS : List Nat := [10000, 7000, 5000]

/-- CONFIG.RETRY_DELAYS (WhatsApp validator default). -/
def CONFIG_RETRY_DELAYS : List Nat := [3000, 5000]

/-- Fallback of the timeout expression: CONFIG.TIMEOUTS[attempt] when
defined and truthy, else 5000. -/
def timeoutFallback (attempt : Nat) : Nat :=
  match CONFIG_TIMEOUTS.get? attempt with
  | some t => if t ≠ 0 then t else 5000
  | none => 5000

/-- The timeout actually armed by executeRequest:
customTimeout OR CONFIG.TIMEOUTS[attemptNumber] OR 5000, with
JavaScript falsiness (null or 0 falls through). -/
def effectiveTimeout (customTimeout : Option Nat) (attempt : Nat) : Nat :=
  match customTimeout with
  | some c => if c ≠ 0 then c else timeoutFallback attempt
  | none => timeoutFallback attempt

/-- NetworkMonitor.getOptimalTimeout (lines 1580-1590). -/
inductive ConnQuality
  | poor
  | moderate
  | good
deriving DecidableEq

/-- Network-quality-dependent timeout: 15000 for poor, 10000 for
moderate, 7000 for good connections. -/
def getOptimalTimeout : ConnQuality → Nat
  | .poor => 15000
  | .moderate => 10000
  | .good => 7000

/-! # The email validator (part_000 lines 216-805)

Two views are needed.  First an atomic view of validateEmail
(lines 388-482): the retry loop with its input re-reads, as a function
of the environment observed at each suspension point.  Second a phased
view of the whole orchestration (queueValidation, the QueueManager and
the suspension points of validateEmail), used to trace interleavings
of several jobs. -/

/-- The result discriminator of a parsed response
(data.result / data.did_you_mean). -/
inductive EmailRes
  | valid
  | invalidSug (suggestion : String)
  | invalid
  | unknown
  | otherRes
deriving DecidableEq

/-- Environment observed during one iteration of the validateEmail
retry loop: the fetch outcome (none when fetch or json threw), the
input field value re-read right after the response, and the value
re-read after the 1500 ms unknown-retry delay. -/
structure EmailEnvStep where
  fetch : Option EmailRes
  inputAtCheck : String
  inputAfterSleep : String
deriving DecidableEq

/-- Net outcome of validateEmail on the validation state: a verdict is
applied (validationState set to the boolean, lastValidatedEmail set to
the subject), or the state is left neutral (validationState null). -/
inductive EmailOutcome
  | applied (b : Bool)
  | neutral
deriving DecidableEq

/-- How the code after the loop (lines 444-477) maps a final parsed
result to the outcome: valid applies true, invalid (with or without a
suggestion) applies false, unknown and any other discriminator resolve
to neutral. -/
def classifyEmailRes (r : EmailRes) : EmailOutcome :=
  match r with
  | .valid => .applied true
  | .invalidSug _ => .applied false
  | .invalid => .applied false
  | .unknown => .neutral
  | .otherRes => .neutral

/-- The retry loop of validateEmail (lines 407-477), attempts bounded
by the environment list (the source runs it with three entries): a
fetch error resolves neutrally; otherwise the input is re-read and a
mismatch resolves neutrally; a non-unknown result breaks to the
classification; an unknown result on a non-final attempt sleeps,
re-reads the input (mismatch resolves neutrally) and retries; an
unknown result on the final attempt falls through to neutral. -/
def emailFetchLoop (email : String) : List EmailEnvStep → EmailOutcome
  | [] => .neutral
  | [e] =>
    match e.fetch with
    | none => .neutral
    | some d =>
      if e.inputAtCheck ≠ email then .neutral
      else classifyEmailRes d
  | e :: rest =>
    match e.fetch with
    | none => .neutral
    | some d =>
      if e.inputAtCheck ≠ email then .neutral
      else if d ≠ .unknown then classifyEmailRes d
      else if e.inputAfterSleep ≠ email then .neutral
      else emailFetchLoop email rest

/-- validateEmail (lines 388-482) as an outcome: a cached true verdict
is applied without any network traffic, otherwise the retry loop
decides. -/
def validateEmail (email : String) (cached : Option Bool) (envs : List EmailEnvStep) :
    EmailOutcome :=
  match cached with
  | some true => .applied true
  | _ => emailFetchLoop email envs

/-- Email validator submit interception (handleSubmit, lines 312-319,
and handleSubmitClick, lines 321-328): the event is cancelled exactly
when validationState is false. -/
def emailHandleSubmit (validationState : Option Bool) : Bool :=
  validationState = some false

/-- handleSubmitClick has the same body as handleSubmit. -/
def emailHandleSubmitClick (validationState : Option Bool) : Bool :=
  validationState = some false

/-! ## Phased view of the email orchestration

Jobs progress through the suspension points of validateEmail: the await
on cacheManager.get, then the awaits on fetch/json of each attempt.
Between suspension points the code runs atomically (single-threaded
event loop).  The input field value at a resumption is an environment
parameter: the user controls it. -/

/-- Phase of a dispatched validateEmail job. -/
inductive EJobPhase
  | atCache (email : String)
  | fetching (email : String) (attempt : Nat)
  | sleeping (email : String) (attempt : Nat)
deriving DecidableEq

/-- Orchestration state of the email validator: the scalar fields of
EmailValidator.state used by queueValidation and validateEmail, the
QueueManager fields, the dispatched jobs with their phases, and the
value cache (the email cache only ever stores true). -/
structure EOSt where
  isValidating : Bool
  activeEmail : Option String
  validationState : Option Bool
  lastValidatedEmail : String
  queue : List String
  activeCount : Nat
  jobs : List EJobPhase
  cache : List (String × Bool)
deriving DecidableEq

/-- The outstanding network calls of a phased state: one per job
sitting at a fetch. -/
def eoOutstanding (s : EOSt) : List String :=
  s.jobs.filterMap (fun j => match j with
    | .fetching e _ => some e
    | _ => none)

/-- Initial email orchestration state. -/
def eoInit : EOSt :=
  { isValidating := false, activeEmail := none, validationState := none,
    lastValidatedEmail := "", queue := [], activeCount := 0, jobs := [], cache := [] }

/-- QueueManager.process in the phased view: dispatching a job runs the
synchronous prefix of validateEmail (lines 389-391: isValidating true,
activeEmail set) and suspends it at the cache read. -/
def eoProcess (s : EOSt) : EOSt :=
  if qMaxConcurrent ≤ s.activeCount ∨ s.queue = [] then s
  else match s.queue.getLast? with
    | none => s
    | some v =>
      { s with
          queue := s.queue.dropLast
          activeCount := s.activeCount + 1
          isValidating := true
          activeEmail := some v
          jobs := .atCache v :: s.jobs }

/-- queueValidation (lines 368-386) for input value v (nonempty and
syntactically valid): skip when a validation for v is already marked
active or v is the last successfully validated value, otherwise
QueueManager.add (cancel, capacity-checked push, process). -/
def eoQueueValidation (v : String) (s : EOSt) : EOSt :=
  if (s.isValidating ∧ s.activeEmail = some v) ∨
     (s.validationState = some true ∧ s.lastValidatedEmail = v) then s
  else
    let q := s.queue.erase v
    if q.length < qMaxSize then eoProcess { s with queue := q ++ [v] }
    else { s with queue := q }

/-- The finally of validateEmail (lines 478-481) together with the
done callback of QueueManager (lines 182-185): clear the validating
flags, free the slot, process the next queued entry. -/
def eoFinishJob (s : EOSt) : EOSt :=
  eoProcess { s with
                isValidating := false
                activeEmail := none
                activeCount := s.activeCount - 1 }

/-- Resumption after the cacheManager.get await (lines 397-405): a
cached true verdict is applied and the job finishes without network
traffic; otherwise the first fetch of the loop is issued. -/
def eoCacheResume (v : String) (s : EOSt) : EOSt :=
  if EJobPhase.atCache v ∈ s.jobs then
    let s1 := { s with jobs := s.jobs.erase (EJobPhase.atCache v) }
    match s1.cache.lookup v with
    | some true =>
      eoFinishJob { s1 with validationState := some true, lastValidatedEmail := v }
    | _ => { s1 with jobs := .fetching v 0 :: s1.jobs }
  else s

/-- Resumption when the fetch of attempt n for v settles, with the
input field content at that moment (lines 410-477): an error or an
input mismatch resolves neutrally; valid results are cached and
applied; invalid results are applied; unknown results sleep on
non-final attempts and resolve neutrally on the final one. -/
def eoFetchResolve (v : String) (n : Nat) (res : Option EmailRes) (inputNow : String)
    (s : EOSt) : EOSt :=
  if EJobPhase.fetching v n ∈ s.jobs then
    let s1 := { s with jobs := s.jobs.erase (EJobPhase.fetching v n) }
    match res with
    | none => eoFinishJob { s1 with validationState := none }
    | some d =>
      if inputNow ≠ v then eoFinishJob { s1 with validationState := none }
      else match d with
        | .valid =>
          eoFinishJob { s1 with
                          cache := (v, true) :: s1.cache
                          validationState := some true
                          lastValidatedEmail := v }
        | .invalidSug _ =>
          eoFinishJob { s1 with validationState := some false, lastValidatedEmail := v }
        | .invalid =>
          eoFinishJob { s1 with validationState := some false, lastValidatedEmail := v }
        | .otherRes => eoFinishJob { s1 with validationState := none }
        | .unknown =>
          if n + 1 < 3 then { s1 with jobs := .sleeping v n :: s1.jobs }
          else eoFinishJob { s1 with validationState := none }
  else s

/-- Resumption after the 1500 ms unknown-retry sleep (lines 435-441):
an input mismatch resolves neutrally, otherwise the next attempt is
fetched. -/
def eoSleepResume (v : String) (n : Nat) (inputNow : String) (s : EOSt) : EOSt :=
  if EJobPhase.sleeping v n ∈ s.jobs then
    let s1 := { s with jobs := s.jobs.erase (EJobPhase.sleeping v n) }
    if inputNow ≠ v then eoFinishJob { s1 with validationState := none }
    else { s1 with jobs := .fetching v (n + 1) :: s1.jobs }
  else s

/-! # The WhatsApp validator (part_000 lines 806-3057)

State fields of WhatsAppValidator.state that the claims touch, the
submit interceptors, handleInput, the decision chain at the start of
validateWhatsApp, the completion and failure paths, activateFailsafe
and the animation-frame batcher.  The submit-button state is tracked as
either its captured original state or the grey disabled state; submit
actions other than activateFailsafe are applied directly (the batch
scheduled by the same synchronous block carries the same values), while
activateFailsafe resets validationState and re-enables the button only
inside its scheduled batch, which in turn schedules the button update
into a second batch - this deferral is modelled explicitly through the
pending queue because the state in between is observable. -/

/-- Submit-button rendering state. -/
inductive SubmitStatus
  | original
  | disabledGrey
deriving DecidableEq

/-- The action argument of updateSubmitButton (lines 2647-2710):
enable restores the captured original state, disable greys the button
out, clear only resets labels and hides the message. -/
inductive SubmitAction
  | enable
  | disable
  | clear
deriving DecidableEq

/-- Effects sitting in the DOM batcher queue. -/
inductive WAEffect
  | failsafeReset
  | submitEff (a : SubmitAction)
deriving DecidableEq

/-- The WhatsAppValidator state (fields of this.state the claims
concern), the current trimmed input field value, the submit-button
state, the batcher queue and a count of network requests issued. -/
structure WASt where
  validationState : Option Bool
  lastCheckedNumber : String
  failsafeMode : Bool
  isRetrying : Bool
  retryCtrl : Bool
  domModified : Bool
  inputValue : String
  submit : SubmitStatus
  pending : List WAEffect
  requests : Nat
deriving DecidableEq

/-- Initial WhatsAppValidator state (constructor, lines 1675-1688). -/
def waInit : WASt :=
  { validationState := none, lastCheckedNumber := "", failsafeMode := false,
    isRetrying := false, retryCtrl := false, domModified := false,
    inputValue := "", submit := .original, pending := [], requests := 0 }

/-- enableDOMModifications (line 1746). -/
def waEnableDom (s : WASt) : WASt := { s with domModified := true }

/-- updateSubmitButton on the submit-button state: enable restores the
original, disable greys out, clear leaves the disabled state alone. -/
def applySubmitAction (a : SubmitAction) (s : WASt) : WASt :=
  match a with
  | .enable => { s with submit := .original }
  | .disable => { s with submit := .disabledGrey }
  | .clear => s

/-- activateFailsafe (lines 2339-2374): set the failsafe flag
synchronously and schedule the batch that clears the validation state
and re-enables the button. -/
def waActivateFailsafe (s : WASt) : WASt :=
  { s with failsafeMode := true, pending := s.pending ++ [.failsafeReset] }

/-- Application of one batched effect.  The failsafe batch (lines
2347-2373) nulls the validation state and calls
updateSubmitButton enable, which schedules the button change into the
following frame. -/
def applyWAEffect (s : WASt) (e : WAEffect) : WASt :=
  match e with
  | .failsafeReset =>
    { s with validationState := none, pending := s.pending ++ [.submitEff .enable] }
  | .submitEff a => applySubmitAction a s

/-- One animation-frame flush of the DOM batcher (lines 1378-1391):
run the queued effects; effects scheduled while flushing run in the
next frame. -/
def waFlush (s : WASt) : WASt :=
  List.foldl applyWAEffect { s with pending := [] } s.pending

/-- CONFIG.MIN_PHONE_LENGTH default. -/
def minPhoneLength : Nat := 10

/-- handleInput (lines 1907-1957) for the trimmed value v.  Before the
first interaction (domModified false) only validateSilently runs.
Afterwards: the retry-cancel branch is dead (retryController is never
assigned a non-null controller), the failsafe flag is cleared, an empty
value resets the state, an invalid stored state re-disables the button,
and a value shorter than the minimum length clears lastCheckedNumber.
The debounce timer itself changes no modelled state. -/
def waHandleInput (v : String) (s : WASt) : WASt :=
  if s.domModified = false then
    if minPhoneLength ≤ v.length then { s with inputValue := v, lastCheckedNumber := v }
    else { s with inputValue := v }
  else if v = "" then
    applySubmitAction .clear
      { s with inputValue := v, failsafeMode := false,
               validationState := none, lastCheckedNumber := "" }
  else if minPhoneLength ≤ v.length then
    if s.validationState = some false then
      applySubmitAction .disable { s with inputValue := v, failsafeMode := false }
    else { s with inputValue := v, failsafeMode := false }
  else
    if s.validationState = some false then
      applySubmitAction .disable
        { s with inputValue := v, failsafeMode := false, lastCheckedNumber := "" }
    else { s with inputValue := v, failsafeMode := false, lastCheckedNumber := "" }

/-- Decision of a submit interceptor. -/
inductive SubmitDecision
  | allowed
  | blocked
deriving DecidableEq

/-- Shared body of handleFormSubmit (lines 2029-2046) and
handleSubmitClick (lines 2048-2065): during a retry with a live
controller the retry is aborted, failsafe activated and the event let
through; in failsafe mode the event is let through; an invalid stored
state cancels the event and shows the blocking message; anything else
is let through. -/
def waSubmitIntercept (s : WASt) : SubmitDecision × WASt :=
  if s.isRetrying ∧ s.retryCtrl then
    (.allowed, waActivateFailsafe { s with isRetrying := false, retryCtrl := false })
  else if s.failsafeMode then (.allowed, s)
  else if s.validationState = some false then (.blocked, s)
  else (.allowed, s)

/-- handleFormSubmit (lines 2029-2046). -/
def waHandleFormSubmit (s : WASt) : SubmitDecision × WASt := waSubmitIntercept s

/-- handleSubmitClick (lines 2048-2065). -/
def waHandleSubmitClick (s : WASt) : SubmitDecision × WASt := waSubmitIntercept s

/-- handleValidationResult (lines 2329-2337): render the verdict, then
record the checked number and the verdict. -/
def waHandleValidationResult (isRegistered : Bool) (phone : String) (s : WASt) : WASt :=
  let s1 := if isRegistered then applySubmitAction .enable { s with validationState := some true }
            else applySubmitAction .disable { s with validationState := some false }
  { s1 with lastCheckedNumber := phone, validationState := some isRegistered }

/-- String-level wrapper of PhoneFormatter.normalize. -/
def normalizeStr (s : String) : String := String.mk (PhoneFormatter.normalize s.data)

/-- Environment read by one validateWhatsApp invocation. -/
structure WAEnv where
  degraded : Bool
  online : Bool
  budgetOk : Bool
  cached : Option Bool
  rateOk : Bool
  reqBudgetOk : Bool
  connection : ConnQuality
deriving DecidableEq

/-- How one validateWhatsApp invocation leaves its decision chain. -/
inductive WAAction
  | failsafeOut
  | offlineOut
  | skipOut
  | cachedOut (b : Bool)
  | rateLimitedOut
  | requestOut (phone : String) (timeoutMs : Nat)
deriving DecidableEq

/-- The decision chain at the head of validateWhatsApp (lines
2118-2245), up to and including issuing the network request: error
boundary degradation and a violated performance budget activate
failsafe; being offline shows a message; entering at attempt 0 with the
failsafe flag set clears the flag and continues; the failsafe skip
branch only fires mid-retry; empty and short values bail out; at
attempt 0 a cached verdict is applied without a request, an exhausted
rate limit or request budget renders an invalid-style message; a value
whose normalization was already checked with a recorded verdict is
skipped at attempt 0; otherwise the request for the normalized value is
issued with the network-quality timeout. -/
def waValidateEntryCore (attempt : Nat) (env : WAEnv) (s : WASt) : WAAction × WASt :=
  if s.failsafeMode ∧ s.isRetrying = false then (.skipOut, s)
  else if s.inputValue = "" then
    (.skipOut, applySubmitAction .clear
      { s with lastCheckedNumber := "", validationState := none })
  else if s.inputValue.length < minPhoneLength then (.skipOut, s)
  else
    match env.cached, attempt with
    | some b, 0 => (.cachedOut b, waHandleValidationResult b s.inputValue s)
    | _, _ =>
      if attempt = 0 ∧ env.rateOk = false then
        (.rateLimitedOut, applySubmitAction .disable
          { s with validationState := some false })
      else if env.reqBudgetOk = false then
        (.rateLimitedOut, applySubmitAction .disable
          { s with validationState := some false })
      else if normalizeStr s.inputValue = s.lastCheckedNumber ∧
          s.validationState ≠ none ∧ attempt = 0 then
        (.skipOut, s)
      else if attempt = 0 then
        (.requestOut (normalizeStr s.inputValue) (getOptimalTimeout env.connection),
         { s with retryCtrl := false, requests := s.requests + 1 })
      else
        (.requestOut (normalizeStr s.inputValue) (getOptimalTimeout env.connection),
         { s with requests := s.requests + 1 })

/-- The decision chain of validateWhatsApp assembled: global guards,
the attempt-0 failsafe reset, then the per-value chain. -/
def waValidateEntry (attempt : Nat) (env : WAEnv) (s : WASt) : WAAction × WASt :=
  if env.degraded then (.failsafeOut, waActivateFailsafe s)
  else if env.online = false then (.offlineOut, s)
  else if env.budgetOk = false then (.failsafeOut, waActivateFailsafe s)
  else
    waValidateEntryCore attempt env
      (if s.failsafeMode ∧ attempt = 0 then { s with failsafeMode := false } else s)

/-- The success continuation of validateWhatsApp (lines 2241-2269):
once the awaited request resolves, the retry flags are cleared and the
verdict is recorded and rendered for the normalized value - without
re-reading the input field.  The cache write keyed by the raw value is
modelled on the cache store separately. -/
def waComplete (phone : String) (isRegistered : Bool) (s : WASt) : WASt :=
  waHandleValidationResult isRegistered phone
    { s with isRetrying := false, retryCtrl := false }

/-- Outcome of the catch block of validateWhatsApp. -/
inductive WAFailOutcome
  | retryScheduled (delayMs : Nat)
  | failsafe
deriving DecidableEq

/-- The catch block (lines 2270-2326): below two prior attempts a retry
is scheduled after the attempt-indexed delay and the retry flag is set;
on the third failure failsafe is activated (through the error boundary
path or directly). -/
def waFail (attempt : Nat) (degradedNow : Bool) (s : WASt) : WAFailOutcome × WASt :=
  if attempt < 2 then
    (.retryScheduled ((CONFIG_RETRY_DELAYS.get? attempt).getD 0),
     { s with isRetrying := true })
  else if degradedNow then (.failsafe, waActivateFailsafe s)
  else (.failsafe, waActivateFailsafe { s with isRetrying := false, retryCtrl := false })

/-- What a fired retry timer does. -/
inductive RetryFire
  | revalidate (attempt : Nat)
  | silentAbort
deriving DecidableEq

/-- The retry timer callback (lines 2298-2306): re-read the input
field; if it still equals the raw value being validated, run the next
attempt, otherwise abort silently. -/
def waRetryFire (attempt : Nat) (rawValue : String) (s : WASt) : RetryFire × WASt :=
  if s.inputValue = rawValue then (.revalidate (attempt + 1), s)
  else (.silentAbort, { s with isRetrying := false })

/-- The RequestManager invariant: the promise-map keys are distinct and
outstanding calls are covered by map entries. -/
def rmInv (s : RMState) : Prop :=
  s.active.Nodup ∧ ∀ v, s.outstanding.count v ≤ s.active.count v


/-- A concrete earliest-written cache entry (empty key, timestamp 0). -/
def c8Hd : String × CEntry Unit := ("", ⟨(), 0, 0⟩)

/-- Fifty later concrete entries with distinct keys and strictly
increasing timestamps 1..50. -/
def c8Tl : CStore Unit :=
  (List.range 50).map (fun i => (String.mk (List.replicate (i + 1) 'a'), ⟨(), 0, i + 1⟩))

/-- A permissive environment: no degradation, online, budgets and rate
limit fine, nothing cached, good connection. -/
def waEnvOk : WAEnv :=
  { degraded := false, online := true, budgetOk := true, cached := none,
    rateOk := true, reqBudgetOk := true, connection := .good }

/-- The state after: 081111111111 validated invalid, the user typed
082222222222, and its three validation attempts (with retry timers
firing on the unchanged value) all failed, so the third failure just
activated failsafe.  The scheduled batch has not flushed yet. -/
def waAfterThirdFailure : WASt :=
  (waFail 2 false
    ((waValidateEntry 2 waEnvOk
      ((waRetryFire 1 "082222222222"
        ((waFail 1 false
          ((waValidateEntry 1 waEnvOk
            ((waRetryFire 0 "082222222222"
              ((waFail 0 false
                ((waValidateEntry 0 waEnvOk
                  (waHandleInput "082222222222"
                    (waComplete (normalizeStr "081111111111") false
                      ((waValidateEntry 0 waEnvOk
                        (waHandleInput "081111111111"
                          (waEnableDom waInit))).2)))).2)).2)).2)).2)).2)).2)).2)).2

/-- The WhatsApp state just before a stale verdict arrives: a request
was issued for 081234567890, then the user changed the input field to
089999999999 while the call was in flight. -/
def c1PreState : WASt :=
  waHandleInput "089999999999"
    ((waValidateEntry 0
        { degraded := false, online := true, budgetOk := true, cached := none,
          rateOk := true, reqBudgetOk := true, connection := .good }
        (waHandleInput "081234567890" (waEnableDom waInit))).2)

/-- A non-whitelisted POST carrying a non-JSON content type and an empty
body, arriving while the rate limit for its IP is exhausted. -/
def c9Req : WorkerReq := { method := .post, contentTypeJson := false, body := .empty }

/-- Environment for `c9Req`: KV bound, rate check denies, credential and
upstream healthy. -/
def c9Env : WorkerEnv :=
  { whitelisted := false, kvBound := true, rateAllowed := false,
    apiKeyPresent := true, upstream := .ok 200 }

theorem keepChar_plus : keepChar '+' = true := by decide

theorem keepChar_six : keepChar '6' = true := by decide

theorem keepChar_two : keepChar '2' = true := by decide

theorem cleanPhone_keep {s : List Char} {c : Char} (h : c ∈ cleanPhone s) :
    keepChar c = true := (List.mem_filter.mp h).2

theorem cleanPhone_eq_self {s : List Char} (h : ∀ c ∈ s, keepChar c = true) :
    cleanPhone s = s := List.filter_eq_self.mpr h

theorem take_two_plus (t : List Char) : ('+' :: t).take 2 ≠ ['6', '2'] := by
  cases t <;> simp [List.take]

theorem fmtClean_plus (t : List Char) : fmtClean ('+' :: t) = '+' :: t := by
  unfold fmtClean
  simp [List.take, take_two_plus]

theorem fmtClean_shape (c : List Char) : ∃ t, fmtClean c = '+' :: t := by
  unfold fmtClean
  split
  · exact ⟨_, rfl⟩
  · split
    · exact ⟨_, rfl⟩
    · split
      · next h =>
        cases c with
        | nil => simp [List.take] at h
        | cons a t =>
          simp only [List.take, List.cons.injEq] at h
          exact ⟨t, by rw [h.1]⟩
      · exact ⟨_, rfl⟩

theorem fmtClean_keep {c : List Char} (h : ∀ x ∈ c, keepChar x = true) :
    ∀ x ∈ fmtClean c, keepChar x = true := by
  unfold fmtClean
  split
  · intro x hx
    simp only [List.mem_cons] at hx
    rcases hx with rfl | rfl | rfl | hx
    · exact keepChar_plus
    · exact keepChar_six
    · exact keepChar_two
    · exact h x (List.mem_of_mem_drop hx)
  · split
    · intro x hx
      simp only [List.mem_cons] at hx
      rcases hx with rfl | hx
      · exact keepChar_plus
      · exact h x hx
    · split
      · exact h
      · intro x hx
        simp only [List.mem_cons] at hx
        rcases hx with rfl | rfl | rfl | hx
        · exact keepChar_plus
        · exact keepChar_six
        · exact keepChar_two
        · exact h x hx

theorem formatPhoneNumber_idem (s : List Char) :
    formatPhoneNumberOpt (formatPhoneNumber s) = formatPhoneNumber s := by
  by_cases hs : s = []
  · simp [formatPhoneNumber, hs, formatPhoneNumberOpt]
  · have hkeep : ∀ x ∈ cleanPhone s, keepChar x = true := fun x hx => cleanPhone_keep hx
    obtain ⟨t, ht⟩ := fmtClean_shape (cleanPhone s)
    have hclean : cleanPhone (fmtClean (cleanPhone s)) = fmtClean (cleanPhone s) :=
      cleanPhone_eq_self (fmtClean_keep hkeep)
    simp only [formatPhoneNumber, if_neg hs, formatPhoneNumberOpt]
    rw [ht] at hclean ⊢
    simp [formatPhoneNumber, hclean, fmtClean_plus]

namespace PhoneFormatter

theorem normClean_plus (t : List Char) : normClean ('+' :: t) = '+' :: t := by
  unfold normClean
  simp [List.take, take_two_plus]

theorem normClean_cases (n : List Char) :
    (∃ t, normClean n = '+' :: t) ∨ normClean n = n := by
  unfold normClean
  split
  · exact .inl ⟨_, rfl⟩
  · split
    · exact .inl ⟨_, rfl⟩
    · split
      · exact .inl ⟨_, rfl⟩
      · exact .inr rfl

theorem normClean_idem (n : List Char) : normClean (normClean n) = normClean n := by
  rcases normClean_cases n with ⟨t, ht⟩ | h
  · rw [ht, normClean_plus]
  · rw [h]
    exact h

theorem normClean_keep {n : List Char} (h : ∀ x ∈ n, keepChar x = true) :
    ∀ x ∈ normClean n, keepChar x = true := by
  unfold normClean
  split
  · intro x hx
    simp only [List.mem_cons] at hx
    rcases hx with rfl | rfl | rfl | hx
    · exact keepChar_plus
    · exact keepChar_six
    · exact keepChar_two
    · exact h x (List.mem_of_mem_drop hx)
  · split
    · intro x hx
      simp only [List.mem_cons] at hx
      rcases hx with rfl | hx
      · exact keepChar_plus
      · exact h x hx
    · split
      · intro x hx
        simp only [List.mem_cons] at hx
        rcases hx with rfl | rfl | rfl | hx
        · exact keepChar_plus
        · exact keepChar_six
        · exact keepChar_two
        · exact h x hx
      · exact h

theorem normalize_idem (s : List Char) : normalize (normalize s) = normalize s := by
  unfold normalize
  have hkeep : ∀ x ∈ cleanPhone s, keepChar x = true := fun x hx => cleanPhone_keep hx
  rw [cleanPhone_eq_self (normClean_keep hkeep), normClean_idem]

end PhoneFormatter

/-- C10: Phone-number normalization is idempotent: for every input string,
the worker formatPhoneNumber (with null propagated) and the client
PhoneFormatter.normalize both return their own output unchanged when
applied a second time. -/
theorem c10_normalization_idempotent (s : List Char) :
    formatPhoneNumberOpt (formatPhoneNumber s) = formatPhoneNumber s ∧
    PhoneFormatter.normalize (PhoneFormatter.normalize s) = PhoneFormatter.normalize s :=
  ⟨formatPhoneNumber_idem s, PhoneFormatter.normalize_idem s⟩

/-- C9 counterexample: a POST with a non-JSON content type and an empty
body does not always yield 400 as the claim states: when the client IP
has exhausted its rate limit, handleRequest answers 200 (the silent
rate-limit envelope, lines 100-119) before the body is ever parsed. -/
theorem c9_rate_limit_hides_400 :
    handleRequest c9Req c9Env = 200 ∧ handleRequest c9Req c9Env ≠ 400 := by
  constructor
  · rfl
  · decide

/-- C9 (amended): the response status is as the claim maps it provided
the request is not rate limited (whitelisted IP, unbound KV namespace,
or an allowing rate check): OPTIONS 204; other non-POST methods 405;
POST body failures 400; missing credential 500; upstream timeout 504;
upstream non-ok status, connection failure or HTML body 502; an upstream
2xx body that is neither HTML nor valid JSON 500; on success the
upstream status is passed through.  A rate-limited, non-whitelisted POST
with bound KV instead receives 200 regardless of its body. -/
theorem c9_status_mapping (req : WorkerReq) (env : WorkerEnv) :
    (req.method = .options → handleRequest req env = 204) ∧
    (req.method = .other → handleRequest req env = 405) ∧
    (req.method = .post → env.whitelisted = false → env.kvBound = true →
      env.rateAllowed = false → handleRequest req env = 200) ∧
    (req.method = .post → (env.whitelisted = true ∨ env.kvBound = false ∨
        env.rateAllowed = true) →
      ((req.contentTypeJson = false ∨ req.body = .empty ∨ req.body = .malformed ∨
          req.body = .parsed [] → handleRequest req env = 400) ∧
       (∀ n, req.body = .parsed n → n ≠ [] → req.contentTypeJson = true →
         (env.apiKeyPresent = false → handleRequest req env = 500) ∧
         (env.apiKeyPresent = true →
           (env.upstream = .timeout → handleRequest req env = 504) ∧
           (∀ s, env.upstream = .httpErr s → handleRequest req env = 502) ∧
           (env.upstream = .netErr → handleRequest req env = 502) ∧
           (env.upstream = .htmlBody → handleRequest req env = 502) ∧
           (env.upstream = .badJson → handleRequest req env = 500) ∧
           (∀ s, env.upstream = .ok s → handleRequest req env = s))))) := by
  obtain ⟨m, ct, body⟩ := req
  obtain ⟨w, kv, ra, key, up⟩ := env
  refine ⟨?_, ?_, ?_, ?_⟩
  · rintro rfl
    rfl
  · rintro rfl
    rfl
  · rintro rfl rfl rfl rfl
    rfl
  · rintro rfl hAllowed
    have hproc : handleRequest ⟨.post, ct, body⟩ ⟨w, kv, ra, key, up⟩ =
        processStatus ⟨.post, ct, body⟩ ⟨w, kv, ra, key, up⟩ := by
      rcases hAllowed with rfl | rfl | rfl <;> simp [handleRequest]
    rw [hproc]
    constructor
    · rintro (rfl | rfl | rfl | rfl) <;> simp [processStatus]
    · rintro n rfl hn rfl
      have hy : formatPhoneNumber n = some (fmtClean (cleanPhone n)) := by
        simp [formatPhoneNumber, hn]
      constructor
      · rintro rfl
        simp [processStatus, hn, hy]
      · rintro rfl
        refine ⟨?_, ?_, ?_, ?_, ?_, ?_⟩
        · rintro rfl
          simp [processStatus, hn, hy]
        · rintro s rfl
          simp [processStatus, hn, hy]
        · rintro rfl
          simp [processStatus, hn, hy]
        · rintro rfl
          simp [processStatus, hn, hy]
        · rintro rfl
          simp [processStatus, hn, hy]
        · rintro s rfl
          simp [processStatus, hn, hy]

/-- Concrete instantiation of the status mapping: a healthy whitelisted
POST with number 08123456789 passes the upstream 200 through. -/
theorem c9_status_mapping_witness :
    handleRequest
      { method := .post, contentTypeJson := true,
        body := .parsed ['0', '8', '1', '2', '3', '4', '5', '6', '7', '8', '9'] }
      { whitelisted := true, kvBound := true, rateAllowed := true,
        apiKeyPresent := true, upstream := .ok 200 } = 200 :=
  ((((c9_status_mapping _ _).2.2.2 rfl (Or.inl rfl)).2
      ['0', '8', '1', '2', '3', '4', '5', '6', '7', '8', '9'] rfl (by decide) rfl).2
      rfl).2.2.2.2.2 200 rfl

theorem find?_map_overwrite {α : Type} (k : String) (e : CEntry α) (st : CStore α)
    (h : st.any (fun p => p.1 = k) = true) :
    List.find? (fun p => p.1 = k)
      (st.map (fun p => if p.1 = k then (k, e) else p)) = some (k, e) := by
  induction st with
  | nil => simp at h
  | cons p tl ih =>
    by_cases hpk : p.1 = k
    · simp [hpk]
    · have h2 : tl.any (fun p => p.1 = k) = true := by
        simp only [List.any_cons, Bool.or_eq_true, decide_eq_true_eq] at h
        rcases h with h | h
        · exact absurd h hpk
        · exact h
      simp only [List.map_cons, if_neg hpk]
      rw [List.find?_cons_of_neg _ (by simpa using hpk)]
      exact ih h2

theorem getItem_setItem_self {α : Type} (k : String) (e : CEntry α) (st : CStore α) :
    getItem k (setItem k e st) = some e := by
  unfold getItem setItem
  by_cases h : st.any (fun p => p.1 = k) = true
  · rw [if_pos h, find?_map_overwrite k e st h]
    rfl
  · rw [if_neg h, List.find?_append]
    have hnone : List.find? (fun p => p.1 = k) st = none := by
      rw [List.find?_eq_none]
      intro x hx hxk
      exact h (List.any_eq_true.mpr ⟨x, hx, hxk⟩)
    rw [hnone]
    simp

theorem getItem_removeItem_self {α : Type} (k : String) (st : CStore α) :
    getItem k (removeItem k st) = none := by
  unfold getItem removeItem
  rw [List.find?_eq_none.mpr]
  · rfl
  · intro x hx
    have hkeep := (List.mem_filter.mp hx).2
    simp only [decide_eq_true_eq] at *
    exact hkeep

theorem waValidateEntryCore_cached_requests (env : WAEnv) (s : WASt) (b : Bool)
    (hc : env.cached = some b) :
    (waValidateEntryCore 0 env s).2.requests = s.requests := by
  simp only [waValidateEntryCore, hc]
  split
  · rfl
  · split
    · simp [applySubmitAction]
    · split
      · rfl
      · cases b <;> simp [waHandleValidationResult, applySubmitAction]

theorem waValidateEntry_cached_requests (env : WAEnv) (s : WASt) (b : Bool)
    (hc : env.cached = some b) :
    (waValidateEntry 0 env s).2.requests = s.requests := by
  simp only [waValidateEntry]
  split
  · simp [waActivateFailsafe]
  · split
    · rfl
    · split
      · simp [waActivateFailsafe]
      · rw [waValidateEntryCore_cached_requests env _ b hc]
        split <;> rfl

/-- C7: a cache entry written by set at time t0 as a success (TTL
600000) is returned by get at t0+599999 with the store untouched, and
at t0+600001 get returns null and removes the entry from storage; a
cached verdict found at attempt 0 is served by validateWhatsApp
without issuing any network request. -/
theorem c7_cache_ttl {α : Type} (keyPref value : String) (r : α) (t0 : Nat) (st : CStore α)
    (env : WAEnv) (s : WASt) (b : Bool) (hc : env.cached = some b) :
    (cacheGet keyPref value (t0 + 599999) (cacheSet keyPref value r true t0 st)).1 = some r ∧
    (cacheGet keyPref value (t0 + 599999) (cacheSet keyPref value r true t0 st)).2 =
      cacheSet keyPref value r true t0 st ∧
    (cacheGet keyPref value (t0 + 600001) (cacheSet keyPref value r true t0 st)).1 = none ∧
    getItem (keyPref ++ value)
      (cacheGet keyPref value (t0 + 600001) (cacheSet keyPref value r true t0 st)).2 = none ∧
    (waValidateEntry 0 env s).2.requests = s.requests := by
  have hset : getItem (keyPref ++ value) (cacheSet keyPref value r true t0 st) =
      some ⟨r, t0 + successTTL, t0⟩ := getItem_setItem_self _ _ _
  have hfresh : ¬ (t0 + successTTL < t0 + 599999) := by
    simp only [successTTL]
    omega
  have hstale : t0 + successTTL < t0 + 600001 := by
    simp only [successTTL]
    omega
  refine ⟨?_, ?_, ?_, ?_, waValidateEntry_cached_requests env s b hc⟩
  · simp [cacheGet, hset, hfresh]
  · simp [cacheGet, hset, hfresh]
  · simp [cacheGet, hset, hstale]
  · simp [cacheGet, hset, hstale, getItem_removeItem_self]

/-- Instantiation of the TTL property at a concrete entry and a cache
hit served without a request. -/
theorem c7_cache_ttl_witness :
    (cacheGet "wa_v_" "08123456789" (0 + 599999)
      (cacheSet "wa_v_" "08123456789" true true 0 [])).1 = some true ∧
    (waValidateEntry 0
      { degraded := false, online := true, budgetOk := true, cached := some true,
        rateOk := true, reqBudgetOk := true, connection := .good }
      waInit).2.requests = waInit.requests :=
  ⟨(c7_cache_ttl "wa_v_" "08123456789" true 0 []
      { degraded := false, online := true, budgetOk := true, cached := some true,
        rateOk := true, reqBudgetOk := true, connection := .good }
      waInit true rfl).1,
   (c7_cache_ttl "wa_v_" "08123456789" true 0 []
      { degraded := false, online := true, budgetOk := true, cached := some true,
        rateOk := true, reqBudgetOk := true, connection := .good }
      waInit true rfl).2.2.2.2⟩

theorem getItem_head {α : Type} (p : String × CEntry α) (tl : CStore α) :
    getItem p.1 (p :: tl) = some p.2 := by
  unfold getItem
  rw [List.find?_cons_of_pos _ (by simp)]
  rfl

theorem getItem_tail {α : Type} (k : String) (p : String × CEntry α) (tl : CStore α)
    (h : p.1 ≠ k) : getItem k (p :: tl) = getItem k tl := by
  unfold getItem
  rw [List.find?_cons_of_neg _ (by simpa using h)]

theorem cleanupItems_of_nodup {α : Type} (st : CStore α)
    (hnd : (st.map Prod.fst).Nodup) :
    (st.map Prod.fst).map (fun k => (k, match getItem k st with
      | some e => e.timestamp
      | none => 0)) = st.map (fun p => (p.1, p.2.timestamp)) := by
  induction st with
  | nil => rfl
  | cons p tl ih =>
    rw [List.map_cons, List.nodup_cons] at hnd
    simp only [List.map_cons]
    have hne : ∀ k ∈ tl.map Prod.fst, p.1 ≠ k := by
      intro k hk hEq
      exact hnd.1 (hEq ▸ hk)
    congr 1
    · rw [getItem_head]
    · rw [List.map_congr_left (fun k hk => by rw [getItem_tail k p tl (hne k hk)])]
      exact ih hnd.2

theorem c8_pre_nodup_ne {α : Type} (hd : String × CEntry α) (tl : CStore α)
    (hnodup : ((hd :: tl).map Prod.fst).Nodup) : ∀ p ∈ tl, p.1 ≠ hd.1 := by
  intro p hp hEq
  rw [List.map_cons, List.nodup_cons] at hnodup
  exact hnodup.1 (hEq ▸ List.mem_map_of_mem Prod.fst hp)

/-- C8: for a store holding MAX_SIZE + 1 = 51 distinct prefixed
unexpired entries, written in order of strictly increasing timestamps,
cleanup leaves exactly the 50 later entries: the single evicted entry
is the one with the earliest write timestamp. -/
theorem c8_capacity_eviction {α : Type} (keyPref : String) (now : Nat)
    (hd : String × CEntry α) (tl : CStore α)
    (hlen : (hd :: tl).length = cacheMaxSize + 1)
    (hpref : ∀ p ∈ hd :: tl, strHasPref keyPref p.1 = true)
    (hnodup : ((hd :: tl).map Prod.fst).Nodup)
    (hfresh : ∀ p ∈ hd :: tl, ¬(p.2.expiry < now))
    (hts : ((hd :: tl).map (fun p => p.2.timestamp)).Pairwise (· < ·)) :
    cacheCleanup keyPref now (hd :: tl) = tl ∧ tl.length = cacheMaxSize ∧
    ∀ p ∈ tl, hd.2.timestamp < p.2.timestamp := by
  have hkeys : cleanupKeys keyPref (hd :: tl) = (hd :: tl).map Prod.fst := by
    unfold cleanupKeys
    rw [List.filter_eq_self.mpr]
    intro k hk
    obtain ⟨p, hp, rfl⟩ := List.mem_map.mp hk
    exact hpref p hp
  have hfr : cleanupFresh keyPref now (hd :: tl) = hd :: tl := by
    unfold cleanupFresh
    rw [List.filter_eq_self.mpr]
    intro p hp
    have hdec : decide (p.2.expiry < now) = false := decide_eq_false (hfresh p hp)
    simp [hdec]
  have hitems : cleanupItems keyPref now (hd :: tl) =
      (hd :: tl).map (fun p => (p.1, p.2.timestamp)) := by
    unfold cleanupItems
    rw [hkeys, hfr]
    exact cleanupItems_of_nodup (hd :: tl) hnodup
  have hlen51 : (hd :: tl).length = 51 := by
    simpa [cacheMaxSize] using hlen
  have hsorted : ((hd :: tl).map (fun p => (p.1, p.2.timestamp))).Pairwise
      (fun a b => (decide (a.2 ≤ b.2)) = true) := by
    rw [List.pairwise_map]
    rw [List.pairwise_map] at hts
    exact List.Pairwise.imp (fun h => by simpa using Nat.le_of_lt h) hts
  have hitemslen : (cleanupItems keyPref now (hd :: tl)).length = 51 := by
    rw [hitems, List.length_map, hlen51]
  have hevict : cleanupEvicted keyPref now (hd :: tl) = [hd.1] := by
    unfold cleanupEvicted
    rw [List.mergeSort_of_sorted (hitems ▸ hsorted), hitemslen, hitems]
    simp [cacheMaxSize]
  have hne_tl := c8_pre_nodup_ne hd tl hnodup
  refine ⟨?_, ?_, ?_⟩
  · unfold cacheCleanup
    rw [if_pos (by rw [hkeys, List.length_map, hlen51]; simp [cacheMaxSize])]
    rw [hfr, hevict, List.filter_cons]
    have hhd : ([hd.1].contains hd.1) = true := by simp
    rw [hhd]
    simp only [Bool.not_true, if_neg (by simp : ¬ (false = true))]
    rw [List.filter_eq_self.mpr]
    intro p hp
    have : ([hd.1].contains p.1) = false := by
      simp only [List.contains_cons, List.contains_nil, Bool.or_false, beq_iff_eq]
      exact decide_eq_false (hne_tl p hp)
    rw [this]
    rfl
  · have : tl.length + 1 = cacheMaxSize + 1 := by simpa using hlen
    omega
  · intro p hp
    rw [List.map_cons, List.pairwise_cons] at hts
    exact hts.1 _ (List.mem_map_of_mem _ hp)

/-- The capacity-eviction theorem instantiated at a concrete 51-entry
store. -/
theorem c8_capacity_eviction_witness :
    cacheCleanup "" 0 (c8Hd :: c8Tl) = c8Tl ∧ c8Tl.length = cacheMaxSize ∧
    ∀ p ∈ c8Tl, c8Hd.2.timestamp < p.2.timestamp :=
  c8_capacity_eviction "" 0 c8Hd c8Tl (by decide) (by decide) (by decide) (by decide)
    (by decide)

/-- C6: the queue contract.  add removes any pending entry for the
value first and appends only below the MAX_SIZE (5) cap - a full queue
not containing the value makes add a complete no-op; when the appended
entry fits and a concurrency slot (cap 2) is free it is dispatched at
once, otherwise it stays appended; process is a no-op at the
concurrency cap and otherwise dispatches the most recently queued
entry (LIFO); a completion with a full pool and a nonempty queue frees
the slot and immediately dispatches the next (most recent) entry. -/
theorem c6_queue_contract (v : String) (s : QueueState) :
    (v ≠ "all" → v ∉ s.queue → qMaxSize ≤ s.queue.length → qAdd v s = s) ∧
    (v ≠ "all" → (s.queue.erase v).length < qMaxSize →
      (qMaxConcurrent ≤ s.activeCount →
        qAdd v s = { s with queue := s.queue.erase v ++ [v] }) ∧
      (s.activeCount < qMaxConcurrent →
        qAdd v s = { queue := s.queue.erase v, activeCount := s.activeCount + 1,
                     dispatched := v :: s.dispatched })) ∧
    (qMaxConcurrent ≤ s.activeCount → qProcess s = s) ∧
    (∀ l x, s.activeCount < qMaxConcurrent → s.queue = l ++ [x] →
      qProcess s = { queue := l, activeCount := s.activeCount + 1,
                     dispatched := x :: s.dispatched }) ∧
    (∀ l x, s.activeCount = qMaxConcurrent → s.queue = l ++ [x] →
      qComplete s = { queue := l, activeCount := qMaxConcurrent,
                      dispatched := x :: s.dispatched }) := by
  refine ⟨?_, ?_, ?_, ?_, ?_⟩
  · intro hall hmem hfull
    have herase : s.queue.erase v = s.queue := List.erase_of_not_mem hmem
    simp only [qAdd, qCancel, if_neg hall, herase]
    rw [if_neg (by omega)]
  · intro hall hlen
    constructor
    · intro hcap
      simp only [qAdd, qCancel, if_neg hall, if_pos hlen, qProcess]
      rw [if_pos (Or.inl hcap)]
    · intro hslot
      simp only [qAdd, qCancel, if_neg hall, if_pos hlen, qProcess]
      rw [if_neg (by simp; omega), List.getLast?_concat, List.dropLast_concat]
  · intro hcap
    simp only [qProcess]
    rw [if_pos (Or.inl hcap)]
  · intro l x hslot hq
    simp only [qProcess, hq]
    rw [if_neg (by simp; omega), List.getLast?_concat, List.dropLast_concat]
  · intro l x hfull hq
    simp only [qComplete, qProcess, hq]
    rw [if_neg (by simp [hfull, qMaxConcurrent]), List.getLast?_concat,
      List.dropLast_concat]
    simp [hfull, qMaxConcurrent]

/-- The queue contract instantiated: a full queue ignores a new value,
and processing dispatches the most recently queued entry. -/
theorem c6_queue_contract_witness :
    qAdd "f" ⟨["a", "b", "c", "d", "e"], 2, []⟩ = ⟨["a", "b", "c", "d", "e"], 2, []⟩ ∧
    qProcess ⟨["a", "b"], 0, []⟩ = ⟨["a"], 1, ["b"]⟩ :=
  ⟨(c6_queue_contract "f" ⟨["a", "b", "c", "d", "e"], 2, []⟩).1 (by decide) (by decide)
      (by decide),
   (c6_queue_contract "f" ⟨["a", "b"], 0, []⟩).2.2.2.1 ["a"] "b" (by decide) rfl⟩

theorem rmInv_init : rmInv rmInit := by
  constructor
  · exact List.nodup_nil
  · intro v
    simp [rmInit]

theorem rmStep_inv {s t : RMState} (h : RMStep s t) (hs : rmInv s) : rmInv t := by
  obtain ⟨hnd, hcount⟩ := hs
  cases h with
  | callNew v s hv =>
    refine ⟨List.nodup_cons.mpr ⟨hv, hnd⟩, ?_⟩
    intro w
    simp only [List.count_cons]
    have := hcount w
    omega
  | callJoin v s hv => exact ⟨hnd, hcount⟩
  | settle v s hv =>
    refine ⟨hnd, ?_⟩
    intro w
    exact le_trans ((List.erase_sublist v s.outstanding).count_le w) (hcount w)
  | finallyDelete v s hv hv2 =>
    refine ⟨hnd.erase v, ?_⟩
    intro w
    by_cases hw : w = v
    · subst hw
      rw [List.count_eq_zero.mpr hv2]
      exact Nat.zero_le _
    · rw [List.count_erase_of_ne hw]
      exact hcount w

/-- C2 (amended, WhatsApp side): in every reachable RequestManager
state, at most one network call is outstanding per value - concurrent
makeRequest calls for the same value share the registered in-flight
promise, and a new call for that value can only be issued after the
previous one has settled and its map entry was deleted. -/
theorem c2_whatsapp_request_dedup (s : RMState) (h : RMReachable s) (v : String) :
    s.outstanding.count v ≤ 1 := by
  have hinv : rmInv s := by
    induction h with
    | refl => exact rmInv_init
    | tail _ hstep ih => exact rmStep_inv hstep ih
  exact le_trans (hinv.2 v)
    ((List.nodup_iff_count_le_one.mp hinv.1) v)

/-- The dedup invariant instantiated at the state reached by a single
fresh makeRequest call. -/
theorem c2_whatsapp_request_dedup_witness :
    (RMState.mk ["+628123456789"] ["+628123456789"]).outstanding.count "+628123456789" ≤ 1 :=
  c2_whatsapp_request_dedup ⟨["+628123456789"], ["+628123456789"]⟩
    (Relation.ReflTransGen.single
      (RMStep.callNew "+628123456789" rmInit (by simp [rmInit])))
    "+628123456789"

/-- C2 counterexample (email side): the email validator has no shared
in-flight promise; its guard (isValidating with a single activeEmail
slot) fails once a second job finishes in between.  Trace: a job for
address a starts and its fetch is issued; the user switches the input
to address b, whose job completes (valid) while the fetch for a is
still in flight; the user switches back to a, and queueValidation
starts a second job for a, issuing a second concurrent network call
for the identical value. -/
theorem c2_email_overlapping_requests :
    eoOutstanding
      (eoCacheResume "a@x.com"
        (eoQueueValidation "a@x.com"
          (eoFetchResolve "b@x.com" 0 (some .valid) "b@x.com"
            (eoCacheResume "b@x.com"
              (eoQueueValidation "b@x.com"
                (eoCacheResume "a@x.com"
                  (eoQueueValidation "a@x.com" eoInit))))))) =
      ["a@x.com", "a@x.com"] := by decide

theorem emailFetchLoop_applied_check (email : String) (envs : List EmailEnvStep) (b : Bool)
    (h : emailFetchLoop email envs = .applied b) :
    ∃ e ∈ envs, e.inputAtCheck = email := by
  cases envs with
  | nil => simp [emailFetchLoop] at h
  | cons e rest =>
    by_cases hc : e.inputAtCheck = email
    · exact ⟨e, List.mem_cons_self e rest, hc⟩
    · exfalso
      cases rest with
      | nil =>
        simp only [emailFetchLoop] at h
        cases he : e.fetch with
        | none =>
          rw [he] at h
          simp at h
        | some d =>
          rw [he] at h
          simp [hc] at h
      | cons e2 r2 =>
        simp only [emailFetchLoop] at h
        cases he : e.fetch with
        | none =>
          rw [he] at h
          simp at h
        | some d =>
          rw [he] at h
          simp [hc] at h

/-- C1 (amended): the email validateEmail discards a verdict unless the
input re-read at the decisive response equalled the subject (every
path that applies a verdict passed such a check); the WhatsApp
validator re-reads the input only in the retry timer, which aborts
silently on a change - but its completion path records the verdict
unconditionally, without re-reading the input. -/
theorem c1_stale_verdict_discipline (email : String) (envs : List EmailEnvStep) (b : Bool)
    (attempt : Nat) (rawValue : String) (s : WASt) (phone : String) (r : Bool) :
    (emailFetchLoop email envs = .applied b → ∃ e ∈ envs, e.inputAtCheck = email) ∧
    (s.inputValue ≠ rawValue → (waRetryFire attempt rawValue s).1 = .silentAbort) ∧
    (waComplete phone r s).validationState = some r := by
  refine ⟨emailFetchLoop_applied_check email envs b, ?_, ?_⟩
  · intro hne
    simp only [waRetryFire]
    rw [if_neg hne]
  · cases r <;> rfl

/-- The discipline instantiated: a verdict applied on the only attempt
had a matching input check, and a retry for a superseded value aborts
silently. -/
theorem c1_stale_verdict_discipline_witness :
    (∃ e ∈ [EmailEnvStep.mk (some .valid) "u@x.com" "u@x.com"],
        e.inputAtCheck = "u@x.com") ∧
    (waRetryFire 0 "08111" { waInit with inputValue := "08222" }).1 = .silentAbort :=
  ⟨(c1_stale_verdict_discipline "u@x.com" [⟨some .valid, "u@x.com", "u@x.com"⟩] true 0
      "08111" { waInit with inputValue := "08222" } "p" true).1 (by decide),
   (c1_stale_verdict_discipline "u@x.com" [⟨some .valid, "u@x.com", "u@x.com"⟩] true 0
      "08111" { waInit with inputValue := "08222" } "p" true).2.1 (by decide)⟩

/-- C1 counterexample: when the in-flight WhatsApp validation for
081234567890 resolves invalid after the input was changed to
089999999999, the completion path applies the stale verdict anyway:
the stored validation state becomes false and the submit button is
greyed out for the new value, even though the verdict subject differs
from the current input.  The state before completion was neutral. -/
theorem c1_whatsapp_stale_verdict_applied :
    c1PreState.validationState = none ∧
    c1PreState.inputValue = "089999999999" ∧
    normalizeStr "081234567890" ≠ "089999999999" ∧
    (waComplete (normalizeStr "081234567890") false c1PreState).validationState
      = some false ∧
    (waComplete (normalizeStr "081234567890") false c1PreState).submit
      = .disabledGrey ∧
    (waComplete (normalizeStr "081234567890") false c1PreState).inputValue
      = "089999999999" := by decide

/-- C3 (amended): submission gating.  The email validator cancels a
submission, at both the form-submit and the button-click level, exactly
when its stored state is Invalid.  The WhatsApp validator cancels one
exactly when its stored state is Invalid AND failsafe mode is off AND
no retry with a live controller is in progress (the latter branch is
dead code, the controller is never populated); in particular, in the
window between the third failure activating failsafe and the scheduled
batch clearing the stored state, a submission passes although
validationState is false. -/
theorem c3_submission_gating (s : WASt) (vs : Option Bool) :
    (emailHandleSubmit vs = true ↔ vs = some false) ∧
    (emailHandleSubmitClick vs = true ↔ vs = some false) ∧
    ((waHandleFormSubmit s).1 = .blocked ↔
      s.validationState = some false ∧ s.failsafeMode = false ∧
      ¬(s.isRetrying = true ∧ s.retryCtrl = true)) ∧
    ((waHandleSubmitClick s).1 = .blocked ↔
      s.validationState = some false ∧ s.failsafeMode = false ∧
      ¬(s.isRetrying = true ∧ s.retryCtrl = true)) := by
  have hwa : (waSubmitIntercept s).1 = .blocked ↔
      s.validationState = some false ∧ s.failsafeMode = false ∧
      ¬(s.isRetrying = true ∧ s.retryCtrl = true) := by
    unfold waSubmitIntercept
    split_ifs with h1 h2 h3 <;> simp_all
  exact ⟨by simp [emailHandleSubmit], by simp [emailHandleSubmitClick],
    hwa, hwa⟩

/-- C3 counterexample: in the reachable state just after the third
failure activated failsafe, the stored validation state is still
Invalid (its reset sits in the unflushed batch), yet both submit
interceptors let the submission through - the claimed only-if direction
(blocked whenever validationState is false) fails. -/
theorem c3_invalid_state_not_blocked :
    waAfterThirdFailure.validationState = some false ∧
    waAfterThirdFailure.failsafeMode = true ∧
    (waHandleFormSubmit waAfterThirdFailure).1 = .allowed ∧
    (waHandleSubmitClick waAfterThirdFailure).1 = .allowed := by decide

theorem applySubmitAction_failsafe (a : SubmitAction) (s : WASt) :
    (applySubmitAction a s).failsafeMode = s.failsafeMode := by
  cases a <;> rfl

theorem waHandleValidationResult_failsafe (b : Bool) (phone : String) (s : WASt) :
    (waHandleValidationResult b phone s).failsafeMode = s.failsafeMode := by
  cases b <;> rfl

theorem waValidateEntryCore_failsafe (attempt : Nat) (env : WAEnv) (s : WASt)
    (h : s.failsafeMode = false) :
    ((waValidateEntryCore attempt env s).2).failsafeMode = false := by
  simp only [waValidateEntryCore]
  split
  · exact h
  · split
    · rw [applySubmitAction_failsafe]
      exact h
    · split
      · exact h
      · split
        · rw [waHandleValidationResult_failsafe]
          exact h
        · split
          · rw [applySubmitAction_failsafe]
            exact h
          · split
            · rw [applySubmitAction_failsafe]
              exact h
            · split
              · exact h
              · split
                · exact h
                · exact h

theorem waValidateEntry_failsafe_cleared (env : WAEnv) (s : WASt)
    (hdeg : env.degraded = false) (hon : env.online = true) (hbud : env.budgetOk = true) :
    ((waValidateEntry 0 env s).2).failsafeMode = false := by
  simp only [waValidateEntry, hdeg, hon, hbud]
  rw [if_neg (by simp), if_neg (by simp), if_neg (by simp)]
  by_cases hf : s.failsafeMode = true
  · rw [if_pos ⟨hf, trivial⟩]
    exact waValidateEntryCore_failsafe 0 env _ rfl
  · rw [if_neg (fun hc => hf hc.1)]
    exact waValidateEntryCore_failsafe 0 env s (by simpa using hf)

theorem waHandleInput_failsafe_cleared (v : String) (s : WASt)
    (hdm : s.domModified = true) :
    (waHandleInput v s).failsafeMode = false := by
  simp only [waHandleInput, hdm]
  rw [if_neg (by simp)]
  split
  · rw [applySubmitAction_failsafe]
  · split
    · split
      · rw [applySubmitAction_failsafe]
      · rfl
    · split
      · rw [applySubmitAction_failsafe]
      · rfl

/-- C4 (amended): the third consecutive failure for an unchanged value
activates failsafe; once the scheduled frames flush, the stored
validation state is neutral and the submit button restored to its
original (enabled) state; the failsafe flag is cleared by the next
edit.  Failsafe does NOT disable further validation: any subsequent
validateWhatsApp entered at attempt 0 (under a healthy error boundary,
network and budget) clears the flag and proceeds normally. -/
theorem c4_failsafe_contract (s : WASt) (d : Bool) (v : String) (env : WAEnv)
    (hp : s.pending = []) (hdm : s.domModified = true)
    (hdeg : env.degraded = false) (hon : env.online = true)
    (hbud : env.budgetOk = true) :
    ((waFail 2 d s).1 = .failsafe ∧ ((waFail 2 d s).2).failsafeMode = true) ∧
    ((waFlush (waFlush (waActivateFailsafe s))).validationState = none ∧
     (waFlush (waFlush (waActivateFailsafe s))).submit = .original ∧
     (waFlush (waFlush (waActivateFailsafe s))).failsafeMode = true) ∧
    (waHandleInput v s).failsafeMode = false ∧
    ((waValidateEntry 0 env s).2).failsafeMode = false := by
  refine ⟨⟨?_, ?_⟩, ⟨?_, ?_, ?_⟩, waHandleInput_failsafe_cleared v s hdm,
    waValidateEntry_failsafe_cleared env s hdeg hon hbud⟩
  · simp only [waFail]
    rw [if_neg (by omega)]
    split <;> rfl
  · simp only [waFail]
    rw [if_neg (by omega)]
    split <;> simp [waActivateFailsafe]
  · simp [waActivateFailsafe, waFlush, applyWAEffect, applySubmitAction, hp]
  · simp [waActivateFailsafe, waFlush, applyWAEffect, applySubmitAction, hp]
  · simp [waActivateFailsafe, waFlush, applyWAEffect, applySubmitAction, hp]

/-- The failsafe contract instantiated at the state after the third
failure. -/
theorem c4_failsafe_contract_witness :
    (waFlush (waFlush (waActivateFailsafe
      { waInit with
          validationState := some false
          domModified := true
          submit := .disabledGrey }))).validationState = none ∧
    (waFlush (waFlush (waActivateFailsafe
      { waInit with
          validationState := some false
          domModified := true
          submit := .disabledGrey }))).submit = .original ∧
    (waHandleInput "0812"
      { waInit with
          validationState := some false
          domModified := true
          submit := .disabledGrey }).failsafeMode = false :=
  ⟨(c4_failsafe_contract _ false "0812" waEnvOk rfl rfl rfl rfl rfl).2.1.1,
   (c4_failsafe_contract _ false "0812" waEnvOk rfl rfl rfl rfl rfl).2.1.2.1,
   (c4_failsafe_contract _ false "0812" waEnvOk rfl rfl rfl rfl rfl).2.2.1⟩

/-- C4 counterexample: in the failsafe state reached after three
failures for 082222222222, a new attempt-0 validation (for example the
blur handler queueing the unchanged value) is not disabled: it clears
the failsafe flag and issues a fresh network request. -/
theorem c4_failsafe_validation_not_disabled :
    waAfterThirdFailure.failsafeMode = true ∧
    (waValidateEntry 0 waEnvOk waAfterThirdFailure).1 =
      .requestOut (normalizeStr "082222222222") 7000 ∧
    ((waValidateEntry 0 waEnvOk waAfterThirdFailure).2).requests =
      waAfterThirdFailure.requests + 1 ∧
    ((waValidateEntry 0 waEnvOk waAfterThirdFailure).2).failsafeMode = false := by
  decide

/-- C5 counterexample: the orchestrator always passes the
network-quality timeout to the request manager, so the armed timeout on
a good connection at attempt 0 is 7000 ms, not the attempt-indexed
CONFIG.TIMEOUTS entry 10000 ms: the timeout table is bypassed whenever
a custom timeout is supplied. -/
theorem c5_timeout_table_bypassed :
    (waValidateEntry 0 waEnvOk
        (waHandleInput "081234567890" (waEnableDom waInit))).1 =
      .requestOut (normalizeStr "081234567890") 7000 ∧
    effectiveTimeout (some (getOptimalTimeout .good)) 0 = 7000 ∧
    CONFIG_TIMEOUTS.get? 0 = some 10000 ∧
    (7000 : Nat) ≠ 10000 := by decide

/-- C5 (amended): the armed timeout is the orchestrator-supplied
network-quality timeout whenever one is given (nonzero), and the
attempt-indexed CONFIG.TIMEOUTS entry (default [10000, 7000, 5000],
falling back to 5000) only applies without one; on failure with
attempt < 2 a retry is scheduled after the attempt-indexed
CONFIG.RETRY_DELAYS entry (default [3000, 5000]) and fires only if the
input value is unchanged, aborting silently otherwise; from the third
failure on, failsafe is activated instead. -/
theorem c5_retry_controller_contract (q : ConnQuality) (attempt : Nat) (s : WASt)
    (rawValue : String) (d : Bool) (c : Nat) :
    CONFIG_TIMEOUTS = [10000, 7000, 5000] ∧
    CONFIG_RETRY_DELAYS = [3000, 5000] ∧
    (effectiveTimeout (some (getOptimalTimeout q)) attempt = getOptimalTimeout q) ∧
    (effectiveTimeout none attempt = timeoutFallback attempt) ∧
    (c ≠ 0 → effectiveTimeout (some c) attempt = c) ∧
    (attempt < 2 →
      (waFail attempt d s).1 =
        .retryScheduled ((CONFIG_RETRY_DELAYS.get? attempt).getD 0) ∧
      ((waFail attempt d s).2).isRetrying = true) ∧
    (2 ≤ attempt → (waFail attempt d s).1 = .failsafe) ∧
    (s.inputValue = rawValue →
      waRetryFire attempt rawValue s = (.revalidate (attempt + 1), s)) ∧
    (s.inputValue ≠ rawValue →
      (waRetryFire attempt rawValue s).1 = .silentAbort ∧
      ((waRetryFire attempt rawValue s).2).requests = s.requests) := by
  refine ⟨rfl, rfl, ?_, rfl, ?_, ?_, ?_, ?_, ?_⟩
  · cases q <;> simp [effectiveTimeout, getOptimalTimeout]
  · intro hc
    simp [effectiveTimeout, hc]
  · intro h
    constructor
    · simp only [waFail]
      rw [if_pos h]
    · simp only [waFail]
      rw [if_pos h]
  · intro h
    simp only [waFail]
    rw [if_neg (by omega)]
    split <;> rfl
  · intro h
    simp only [waRetryFire]
    rw [if_pos h]
  · intro h
    constructor
    · simp only [waRetryFire]
      rw [if_neg h]
    · simp only [waRetryFire]
      rw [if_neg h]

/-- The retry contract instantiated: retry after the first failure on a
moderate connection uses delay 3000, and a fired timer for a changed
value aborts silently. -/
theorem c5_retry_controller_contract_witness :
    (waFail 0 false waInit).1 = .retryScheduled 3000 ∧
    (waRetryFire 0 "08111" { waInit with inputValue := "08999" }).1 = .silentAbort :=
  ⟨(c5_retry_controller_contract .moderate 0 waInit "08111" false 1).2.2.2.2.2.1
      (by decide) |>.1,
   ((c5_retry_controller_contract .moderate 0
      { waInit with inputValue := "08999" } "08111" false 1).2.2.2.2.2.2.2.2
      (by decide)).1⟩
